import Mathlib

/-!
Verification development for the transaction categorization and aggregation
pipeline of `App.py` (Streamlit finance-priority app).  The Python functions
`classify_transaction_groq`, `analyze_transactions`, `generate_donut_chart`,
`generate_ratios` and the module-level advisory section are embedded
shallowly: pandas frames become lists of rows, rationals stand for Python
numerics, and the external Groq call becomes an explicit oracle argument
(`GroqResult`), with `GroqResult.error` covering every exception the
`try/except` block can catch.
-/

/-- Python whitespace characters stripped by `str.strip()` (ASCII subset;
the inputs of interest here are ASCII). -/
def pyWhitespaceChar (c : Char) : Bool :=
  c = ' ' || c = '\t' || c = '\n' || c = '\r' || c = Char.ofNat 11 || c = Char.ofNat 12

/-- Model of Python `str.strip()`: drop leading and trailing whitespace. -/
def pyStrip (s : String) : String :=
  String.mk (((s.data.dropWhile pyWhitespaceChar).reverse.dropWhile pyWhitespaceChar).reverse)

/-- Model of `re.sub(r"[^a-zA-Z]", "", s)`: keep only ASCII letters
(`Char.isAlpha` tests exactly ASCII `A`-`Z` and `a`-`z`). -/
def filterAsciiLetters (s : String) : String :=
  String.mk (s.data.filter Char.isAlpha)

/-- Model of Python `str.capitalize()`: upper-case the first character,
lower-case the rest (identical to Python on ASCII input). -/
def pyCapitalize (s : String) : String :=
  match s.data with
  | [] => ""
  | c :: cs => String.mk (Char.toUpper c :: cs.map Char.toLower)

/-- Outcome of one call to the Groq chat-completion endpoint, as seen by the
`try` block of `classify_transaction_groq` (App.py lines 54-77):
`ok raw` is a reply whose message content is `raw`; `error` stands for any
raised exception (network failure, timeout, malformed response object). -/
inductive GroqResult where
  | ok (raw : String)
  | error
deriving DecidableEq, Repr

/-- The closed set of canonical labels (App.py line 70, `valid`). -/
def validLabels : List String :=
  ["Kewajiban", "Kebutuhan", "Tujuan", "Keinginan"]

/-- The reply post-processing of App.py lines 62-63:
`raw.strip()` then `re.sub(r"[^a-zA-Z]", "", ...)` then `.capitalize()`. -/
def cleanReply (raw : String) : String :=
  pyCapitalize (filterAsciiLetters (pyStrip raw))

/-- `classify_transaction_groq` (App.py lines 33-77) after the initial
`str(text)` coercion (see `classifyPyCell`): strip the input, return the
sentinel on empty input, otherwise consult the service (the `resp` oracle);
a caught exception or a cleaned reply outside `validLabels` degrades to the
sentinel. -/
def classify_transaction_groq (text : String) (resp : GroqResult) : String :=
  if pyStrip text = "" then "Tidak Terkategori"
  else
    match resp with
    | GroqResult.error => "Tidak Terkategori"
    | GroqResult.ok raw =>
        let cleaned := cleanReply raw
        if cleaned ∈ validLabels then cleaned else "Tidak Terkategori"

/-- An arbitrary Python cell value as handed to the classifier by
`df[transaksi_col].apply(...)`: `pynone` is `None`, `pynan` a pandas `NaN`,
`pyint` an integer cell, `pystr` a string cell. -/
inductive PyValue where
  | pynone
  | pynan
  | pyint (n : ℤ)
  | pystr (s : String)
deriving DecidableEq, Repr

/-- Model of Python `str()` on the cell values above (`str(None) = "None"`,
`str(float("nan")) = "nan"`). -/
def pyStr : PyValue → String
  | PyValue.pynone => "None"
  | PyValue.pynan => "nan"
  | PyValue.pyint n => toString n
  | PyValue.pystr s => s

/-- The classifier applied to a raw cell: App.py line 34 first coerces the
argument with `str(text)`, so any cell value is accepted. -/
def classifyPyCell (v : PyValue) (resp : GroqResult) : String :=
  classify_transaction_groq (pyStr v) resp

/-- The apostrophe character (used to build test strings). -/
def apos : Char := Char.ofNat 39

/-- The reply text I dont know, with a real apostrophe in dont. -/
def iDontKnow : String := "I don" ++ String.mk [apos] ++ "t know"

/-- A cell of the uploaded frame, as relevant to `pd.to_numeric`:
`num q` is a numeric cell (numeric strings, which `pd.to_numeric` also
parses, are represented already as `num`), `text s` a non-numeric text
cell, `empty` a missing cell (`NaN`). -/
inductive Cell where
  | num (q : ℚ)
  | text (s : String)
  | empty
deriving DecidableEq, Repr

/-- `pd.to_numeric(col, errors="coerce").fillna(0)` on one cell
(App.py lines 94, 96-97): numeric cells keep their value, everything else
becomes 0. -/
def to_numeric_fillna : Cell → ℚ
  | Cell.num q => q
  | Cell.text _ => 0
  | Cell.empty => 0

/-- One raw row of the uploaded frame.  A column cell is only consulted when
the corresponding table-level presence flag is set.  Description cells are
kept as the strings the classifier receives. -/
structure RawRow where
  jumlah : Cell
  debit : Cell
  kredit : Cell
  tanggal : Cell
  transaksi : String
  deskripsi : String
deriving DecidableEq, Repr

/-- The uploaded frame after `df.rename(columns=str.lower)` (App.py line 84):
each flag records whether the frame has a column of that (lower-cased)
name. -/
structure RawTable where
  hasJumlah : Bool
  hasDebit : Bool
  hasKredit : Bool
  hasTanggal : Bool
  hasTransaksi : Bool
  hasDeskripsi : Bool
  rows : List RawRow
deriving DecidableEq, Repr

/-- `pd.to_datetime(col, errors="coerce")` on one cell, with dates modelled
as numbers: a numeric cell parses, anything else coerces to `NaT`
(`none`). -/
def parseDate : Cell → Option ℚ
  | Cell.num q => some q
  | _ => none

/-- The `tanggal` column after App.py lines 87-90: parsed when the column
exists, otherwise `NaT` for every row. -/
def dateColumn (t : RawTable) : List (Option ℚ) :=
  if t.hasTanggal then t.rows.map (fun r => parseDate r.tanggal)
  else t.rows.map (fun _ => none)

/-- The `jumlah` column after App.py lines 93-100: coerce an existing
`jumlah` column; else, when both `debit` and `kredit` exist, coerce each and
subtract columnwise; else the constant-0 column. -/
def normalizeAmounts (t : RawTable) : List ℚ :=
  if t.hasJumlah then t.rows.map (fun r => to_numeric_fillna r.jumlah)
  else if t.hasDebit && t.hasKredit then
    List.zipWith (fun a b => a - b)
      (t.rows.map (fun r => to_numeric_fillna r.debit))
      (t.rows.map (fun r => to_numeric_fillna r.kredit))
  else t.rows.map (fun _ => 0)

/-- The description column after App.py lines 102-104: `transaksi` when
present, else `deskripsi` when present, else the empty string for every
row. -/
def descrColumn (t : RawTable) : List String :=
  if t.hasTransaksi then t.rows.map (fun r => r.transaksi)
  else if t.hasDeskripsi then t.rows.map (fun r => r.deskripsi)
  else t.rows.map (fun _ => "")

/-- One row of the classified frame returned by `analyze_transactions`
(the four selected columns of App.py line 107). -/
structure Txn where
  tanggal : Option ℚ
  deskripsi : String
  jumlah : ℚ
  kategori : String
deriving DecidableEq, Repr

/-- The `kategori` column (App.py line 106):
`df[transaksi_col].apply(classify_transaction_groq)`, with the external
service modelled by an oracle from description text to reply. -/
def kategoriColumn (t : RawTable) (oracle : String → GroqResult) : List String :=
  (descrColumn t).map (fun d => classify_transaction_groq d (oracle d))

/-- `analyze_transactions` (App.py lines 83-107): build the four columns and
return them zipped into rows. -/
def analyze_transactions (t : RawTable) (oracle : String → GroqResult) : List Txn :=
  List.zipWith
    (fun (p : Option ℚ × String) (q : ℚ × String) =>
      { tanggal := p.1, deskripsi := p.2, jumlah := q.1, kategori := q.2 })
    ((dateColumn t).zip (descrColumn t))
    ((normalizeAmounts t).zip (kategoriColumn t oracle))

/-- Per-row amount resolution as the spec words it (spec section 4.1), used
to characterise the columnwise `normalizeAmounts`. -/
def rowAmount (t : RawTable) (r : RawRow) : ℚ :=
  if t.hasJumlah then to_numeric_fillna r.jumlah
  else if t.hasDebit && t.hasKredit then
    to_numeric_fillna r.debit - to_numeric_fillna r.kredit
  else 0

/-- Per-row description resolution as the spec words it (spec section 4.1). -/
def rowDescr (t : RawTable) (r : RawRow) : String :=
  if t.hasTransaksi then r.transaksi
  else if t.hasDeskripsi then r.deskripsi
  else ""

/-- Per-row normalization result as the spec words it: one Transaction per
input row, fields resolved independently. -/
def rowTxn (t : RawTable) (oracle : String → GroqResult) (r : RawRow) : Txn :=
  { tanggal := if t.hasTanggal then parseDate r.tanggal else none
    deskripsi := rowDescr t r
    jumlah := rowAmount t r
    kategori := classify_transaction_groq (rowDescr t r) (oracle (rowDescr t r)) }

/-- Total absolute amount `df["jumlah"].abs().sum()` (App.py lines 126 and
223). -/
def totalAbs (df : List Txn) : ℚ :=
  (df.map (fun r => |r.jumlah|)).sum

/-- Per-category sum of absolute amounts
`df[df["kategori"] == k]["jumlah"].abs().sum()` (App.py lines 129 and 228). -/
def catAbsSum (df : List Txn) (k : String) : ℚ :=
  ((df.filter (fun r => r.kategori = k)).map (fun r => |r.jumlah|)).sum

/-- The value the donut chart shows for category `k`:
`df.groupby("kategori")["jumlah"].sum().abs()` (App.py line 114) restricted
to group `k` — the absolute value of the signed sum. -/
def donutValue (df : List Txn) (k : String) : ℚ :=
  |((df.filter (fun r => r.kategori = k)).map (fun r => r.jumlah)).sum|

/-- Per-category sum of absolute amounts as the spec words it
(`summarize`: group by category, sum `abs(amount)` per group), written as a
direct recursion for comparison with the code-side aggregates. -/
def specSumOfAbs : List Txn → String → ℚ
  | [], _ => 0
  | r :: rs, k => (if r.kategori = k then |r.jumlah| else 0) + specSumOfAbs rs k

/-- The iteration order of App.py line 128 / 222 (`kategori_list`). -/
def canonicalLabels : List String :=
  ["Kewajiban", "Kebutuhan", "Tujuan", "Keinginan"]

/-- Digits of a natural number, most significant first. -/
def natChars (n : ℕ) : List Char :=
  if _h : n < 10 then [Nat.digitChar n]
  else natChars (n / 10) ++ [Nat.digitChar (n % 10)]
decreasing_by exact Nat.div_lt_self (by omega) (by omega)

/-- Model of the Python format `f"{x:.2f}%"` for the nonnegative values
produced here: round `x` to two decimals (exact rational rounding in place
of binary-float rounding) and print integer part, dot, two fraction digits
and a percent sign. -/
def fmtPct2 (q : ℚ) : String :=
  let m : ℕ := (round (q * 100)).toNat
  String.mk (natChars (m / 100)) ++ "." ++
    String.mk [Nat.digitChar (m / 10 % 10), Nat.digitChar (m % 10)] ++ "%"

/-- `generate_ratios` (App.py lines 125-131): for each canonical label the
key `k ++ "/Total"` maps to the formatted percentage of `k`s absolute
amount in the total absolute amount, or to the sentinel `"0%"` when the
total is zero (Python falsiness of `total`). -/
def generate_ratios (df : List Txn) : List (String × String) :=
  let total := totalAbs df
  canonicalLabels.map (fun k =>
    (k ++ "/Total",
      if total = 0 then "0%" else fmtPct2 (catAbsSum df k / total * 100)))

/-- The exact percentage value inside the format call of App.py line 130
(`amount / total * 100`), before formatting. -/
def ratioVal (df : List Txn) (k : String) : ℚ :=
  catAbsSum df k / totalAbs df * 100

/-- Sum of the four category ratio values produced by `generate_ratios`. -/
def ratioValSum (df : List Txn) : ℚ :=
  (canonicalLabels.map (ratioVal df)).sum

/-- The per-category percentage of the advisory section (App.py line 230):
`(amt / total * 100) if total else 0`. -/
def rasioPct (df : List Txn) (k : String) : ℚ :=
  if totalAbs df = 0 then 0 else catAbsSum df k / totalAbs df * 100

/-- Whether the warning branch of the advisory expander fires for category
`k` (App.py lines 248-278): Kewajiban warns above 30, Kebutuhan above 50,
Tujuan below 10, Keinginan above 40; otherwise the healthy message is
shown. -/
def advisoryWarn (df : List Txn) (k : String) : Bool :=
  if k = "Kewajiban" then decide (rasioPct df k > 30)
  else if k = "Kebutuhan" then decide (rasioPct df k > 50)
  else if k = "Tujuan" then decide (rasioPct df k < 10)
  else if k = "Keinginan" then decide (rasioPct df k > 40)
  else false

/-- The advisory section output (App.py lines 232-278): one expander per
canonical label, unconditionally, each carrying either its warning or its
healthy message — there is no zero-total branch. -/
def advisorOutput (df : List Txn) : List (String × Bool) :=
  canonicalLabels.map (fun k => (k, advisoryWarn df k))

/-- Recogniser for a two-decimal percentage string: last character `%`,
preceded by two digits, a dot and at least one integer-part character. -/
def isTwoDecimalPct (s : String) : Bool :=
  match s.data.reverse with
  | pc :: d2 :: d1 :: dot :: _ :: _ =>
      pc == '%' && d1.isDigit && d2.isDigit && dot == '.'
  | _ => false

/-- Lower-cased character list of a string (Python `s.lower()` on ASCII). -/
def lowerChars (s : String) : List Char :=
  s.data.map Char.toLower

/-- Whether `needle` is a prefix of `hay` (character lists). -/
def charsStart : List Char → List Char → Bool
  | _, [] => true
  | [], _ :: _ => false
  | c :: cs, n :: ns => c == n && charsStart cs ns

/-- Whether `needle` occurs as a contiguous substring of `hay`. -/
def charsContain : List Char → List Char → Bool
  | [], needle => needle.isEmpty
  | c :: cs, needle => charsStart (c :: cs) needle || charsContain cs needle

/-- Case-insensitive substring test (Python `needle.lower() in hay.lower()`). -/
def containsCI (hay needle : String) : Bool :=
  charsContain (lowerChars hay) (lowerChars needle)

/-- Modelled from the spec: the deterministic keyword-matching classifier
variant (spec sections 4.2 and 8), which is absent from `src/` — the sources
there contain only the external-service variant.  Curated keyword sets
mapped to the canonical labels, in fixed priority order. -/
def keywordRules : List (String × List String) :=
  [("Kewajiban", ["cicilan", "angsuran", "pajak", "pinjaman", "utang"]),
   ("Kebutuhan", ["listrik", "sembako", "transport", "air", "belanja"]),
   ("Tujuan", ["tabungan", "investasi", "setor", "menabung"]),
   ("Keinginan", ["kfc", "hiburan", "game", "bioskop", "kopi"])]

/-- Whether any keyword of rule `r` matches description `d`
(case-insensitive substring). -/
def ruleHits (d : String) (r : String × List String) : Bool :=
  r.2.any (fun kw => containsCI d kw)

/-- Modelled from the spec: walk the rule list in priority order, first
matching set wins, no match yields the label Other. -/
def classify_keyword_aux : List (String × List String) → String → String
  | [], _ => "Other"
  | r :: rs, d => if ruleHits d r then r.1 else classify_keyword_aux rs d

/-- Modelled from the spec: the deterministic keyword classifier
(`classify(text) -> label`), a pure function of the description text with no
oracle argument — it makes no external call. -/
def classify_keyword (d : String) : String :=
  classify_keyword_aux keywordRules d

/-- A classified frame whose single row has amount 0: normalization of any
all-zero-amount upload produces such a frame (total absolute amount 0). -/
def dfZero : List Txn :=
  [{ tanggal := none, deskripsi := "x", jumlah := 0, kategori := "Kebutuhan" }]

/-- A classified frame mixing a canonical row with a sentinel-labelled row of
equal absolute amount. -/
def dfSentinelHalf : List Txn :=
  [{ tanggal := none, deskripsi := "a", jumlah := 50, kategori := "Kebutuhan" },
   { tanggal := none, deskripsi := "b", jumlah := 50, kategori := "Tidak Terkategori" }]

/-- A classified frame whose rows all carry canonical labels. -/
def dfCanonical : List Txn :=
  [{ tanggal := none, deskripsi := "a", jumlah := 60, kategori := "Kebutuhan" },
   { tanggal := none, deskripsi := "b", jumlah := -40, kategori := "Tujuan" }]

/-- A classified frame whose single category mixes a positive and a negative
amount of equal magnitude. -/
def dfMixedSigns : List Txn :=
  [{ tanggal := none, deskripsi := "a", jumlah := 100, kategori := "Kebutuhan" },
   { tanggal := none, deskripsi := "b", jumlah := -100, kategori := "Kebutuhan" }]

/-- A classified frame with one positive canonical row. -/
def dfOnePos : List Txn :=
  [{ tanggal := none, deskripsi := "a", jumlah := 50, kategori := "Kebutuhan" }]

/-- A raw table with only `debit` and `kredit` columns and one row
(debit 200000, kredit 50000) — the debit/credit scenario of spec section 8. -/
def tblDebitKredit : RawTable :=
  { hasJumlah := false, hasDebit := true, hasKredit := true,
    hasTanggal := false, hasTransaksi := false, hasDeskripsi := false,
    rows := [{ jumlah := Cell.empty, debit := Cell.num 200000,
               kredit := Cell.num 50000, tanggal := Cell.empty,
               transaksi := "", deskripsi := "" }] }

/-- A raw table with no description column at all and a single row. -/
def tblNoDescr : RawTable :=
  { hasJumlah := true, hasDebit := false, hasKredit := false,
    hasTanggal := false, hasTransaksi := false, hasDeskripsi := false,
    rows := [{ jumlah := Cell.num 7, debit := Cell.empty,
               kredit := Cell.empty, tanggal := Cell.empty,
               transaksi := "ignored", deskripsi := "ignored" }] }

/-- An oracle that always fails (every call raises). -/
def oracleFail : String → GroqResult := fun _ => GroqResult.error

/-- Zipping two maps over the same list is a map of the paired functions. -/
theorem zip_map_same {α β γ : Type} (f : α → β) (g : α → γ) (l : List α) :
    (l.map f).zip (l.map g) = l.map (fun a => (f a, g a)) := by
  induction l with
  | nil => rfl
  | cons x xs ih => simp [ih]

/-- zipWith over two maps of the same list is a map. -/
theorem zipWith_map_same {α β γ δ : Type} (f : β → γ → δ) (g : α → β)
    (h : α → γ) (l : List α) :
    List.zipWith f (l.map g) (l.map h) = l.map (fun a => f (g a) (h a)) := by
  induction l with
  | nil => rfl
  | cons x xs ih => simp [ih]

theorem dateColumn_eq (t : RawTable) :
    dateColumn t =
      t.rows.map (fun r => if t.hasTanggal then parseDate r.tanggal else none) := by
  unfold dateColumn
  cases h : t.hasTanggal <;> simp [h]

theorem normalizeAmounts_eq (t : RawTable) :
    normalizeAmounts t = t.rows.map (rowAmount t) := by
  unfold normalizeAmounts rowAmount
  cases hj : t.hasJumlah with
  | true => simp [hj]
  | false =>
    cases hd : t.hasDebit with
    | true =>
      cases hk : t.hasKredit with
      | true => simp [hj, hd, hk, zipWith_map_same]
      | false => simp [hj, hd, hk]
    | false => simp [hj, hd]

theorem descrColumn_eq (t : RawTable) :
    descrColumn t = t.rows.map (rowDescr t) := by
  unfold descrColumn rowDescr
  cases ht : t.hasTransaksi with
  | true => simp [ht]
  | false =>
    cases hd : t.hasDeskripsi with
    | true => simp [ht, hd]
    | false => simp [ht, hd]

theorem analyze_transactions_eq (t : RawTable) (oracle : String → GroqResult) :
    analyze_transactions t oracle = t.rows.map (rowTxn t oracle) := by
  unfold analyze_transactions kategoriColumn
  rw [descrColumn_eq, dateColumn_eq, normalizeAmounts_eq, List.map_map,
    zip_map_same, zip_map_same, zipWith_map_same]
  rfl

theorem totalAbs_cons (r : Txn) (df : List Txn) :
    totalAbs (r :: df) = |r.jumlah| + totalAbs df := by
  simp [totalAbs]

theorem totalAbs_append (df : List Txn) (r : Txn) :
    totalAbs (df ++ [r]) = totalAbs df + |r.jumlah| := by
  simp [totalAbs]

theorem catAbsSum_cons (r : Txn) (df : List Txn) (k : String) :
    catAbsSum (r :: df) k =
      (if r.kategori = k then |r.jumlah| else 0) + catAbsSum df k := by
  simp only [catAbsSum, List.filter_cons]
  split
  · next h =>
    simp only [List.map_cons, List.sum_cons]
    rw [if_pos (by simpa using h)]
  · next h =>
    rw [if_neg (by simpa using h)]
    simp

theorem catAbsSum_append (df : List Txn) (r : Txn) (k : String) :
    catAbsSum (df ++ [r]) k =
      catAbsSum df k + (if r.kategori = k then |r.jumlah| else 0) := by
  simp only [catAbsSum, List.filter_append, List.map_append, List.sum_append]
  congr 1
  simp only [List.filter_cons, List.filter_nil]
  split
  · next h =>
    rw [if_pos (by simpa using h)]
    simp
  · next h =>
    rw [if_neg (by simpa using h)]
    simp

theorem catAbsSum_eq_specSumOfAbs (df : List Txn) (k : String) :
    catAbsSum df k = specSumOfAbs df k := by
  induction df with
  | nil => rfl
  | cons r rs ih => rw [catAbsSum_cons, specSumOfAbs, ih]

/-- Absolute value of a sum of nonnegatives is the sum of absolute values. -/
theorem abs_sum_of_forall_nonneg (l : List ℚ) (h : ∀ x ∈ l, 0 ≤ x) :
    |l.sum| = (l.map (fun x => |x|)).sum := by
  induction l with
  | nil => simp
  | cons x xs ih =>
    have hx : 0 ≤ x := h x (by simp)
    have hxs : ∀ y ∈ xs, 0 ≤ y := fun y hy => h y (by simp [hy])
    have hsum : 0 ≤ xs.sum := List.sum_nonneg hxs
    simp only [List.sum_cons, List.map_cons]
    rw [abs_of_nonneg (by positivity), ← ih hxs, abs_of_nonneg hsum,
      abs_of_nonneg hx]

/-- A sum of nonpositive rationals is nonpositive. -/
theorem list_sum_nonpos (l : List ℚ) (h : ∀ x ∈ l, x ≤ 0) : l.sum ≤ 0 := by
  induction l with
  | nil => simp
  | cons x xs ih =>
    have hx : x ≤ 0 := h x (by simp)
    have hxs := ih (fun y hy => h y (by simp [hy]))
    simp only [List.sum_cons]
    linarith

/-- Absolute value of a sum of nonpositives is the sum of absolute values. -/
theorem abs_sum_of_forall_nonpos (l : List ℚ) (h : ∀ x ∈ l, x ≤ 0) :
    |l.sum| = (l.map (fun x => |x|)).sum := by
  induction l with
  | nil => simp
  | cons x xs ih =>
    have hx : x ≤ 0 := h x (by simp)
    have hxs : ∀ y ∈ xs, y ≤ 0 := fun y hy => h y (by simp [hy])
    have hsum : xs.sum ≤ 0 := list_sum_nonpos xs hxs
    simp only [List.sum_cons, List.map_cons]
    rw [abs_of_nonpos (by linarith), ← ih hxs, abs_of_nonpos hsum,
      abs_of_nonpos hx]
    ring

/-- When every row carries a canonical label, the four per-category absolute
sums partition the total absolute amount. -/
theorem catAbsSum_partition (df : List Txn)
    (h : ∀ r ∈ df, r.kategori ∈ canonicalLabels) :
    catAbsSum df "Kewajiban" + catAbsSum df "Kebutuhan" +
      catAbsSum df "Tujuan" + catAbsSum df "Keinginan" = totalAbs df := by
  induction df with
  | nil => simp [catAbsSum, totalAbs]
  | cons r rs ih =>
    have hr : r.kategori ∈ canonicalLabels := h r (by simp)
    have hrs : ∀ x ∈ rs, x.kategori ∈ canonicalLabels :=
      fun x hx => h x (by simp [hx])
    have ihr := ih hrs
    simp only [canonicalLabels, List.mem_cons, List.not_mem_nil, or_false] at hr
    rw [totalAbs_cons, catAbsSum_cons, catAbsSum_cons, catAbsSum_cons,
      catAbsSum_cons]
    rcases hr with h1 | h1 | h1 | h1 <;>
      · rw [h1]
        simp only [if_pos, if_neg, String.reduceEq, reduceIte]
        linarith

theorem natChars_ne_nil (n : ℕ) : natChars n ≠ [] := by
  rw [natChars]
  split <;> simp

theorem digitChar_isDigit {n : ℕ} (h : n < 10) :
    (Nat.digitChar n).isDigit = true := by
  interval_cases n <;> rfl

/-- Every string produced by `fmtPct2` is a two-decimal percentage string. -/
theorem isTwoDecimalPct_fmtPct2 (q : ℚ) :
    isTwoDecimalPct (fmtPct2 q) = true := by
  unfold fmtPct2 isTwoDecimalPct
  set m : ℕ := (round (q * 100)).toNat with hm
  have hdata :
      (String.mk (natChars (m / 100)) ++ "." ++
        String.mk [Nat.digitChar (m / 10 % 10), Nat.digitChar (m % 10)] ++ "%").data
        = natChars (m / 100) ++
            ('.' :: Nat.digitChar (m / 10 % 10) :: Nat.digitChar (m % 10) :: ['%']) := by
    simp [String.data_append]
  rw [hdata, List.reverse_append]
  have hne := natChars_ne_nil (m / 100)
  rcases hrev : (natChars (m / 100)).reverse with _ | ⟨c, cs⟩
  · exact absurd (List.reverse_eq_nil_iff.mp hrev) hne
  · simp only [List.reverse_cons, List.reverse_nil, List.nil_append,
      List.cons_append]
    simp [digitChar_isDigit (Nat.mod_lt _ (by omega)),
      digitChar_isDigit (Nat.mod_lt (m / 10) (by omega) : m / 10 % 10 < 10)]

/-- Rules that do not match are skipped: the keyword walk over an append
whose prefix never matches reduces to the walk over the suffix. -/
theorem classify_keyword_aux_append (pre rest : List (String × List String))
    (d : String) (h : ∀ r ∈ pre, ruleHits d r = false) :
    classify_keyword_aux (pre ++ rest) d = classify_keyword_aux rest d := by
  induction pre with
  | nil => rfl
  | cons p ps ih =>
    have hp : ruleHits d p = false := h p (by simp)
    simp only [List.cons_append, classify_keyword_aux, hp, Bool.false_eq_true,
      if_false]
    exact ih (fun r hr => h r (by simp [hr]))

/-- C1: for every input text and every outcome of the external call
(including an exception), `classify_transaction_groq` returns exactly one
label, and that label lies in the closed set of four canonical labels or is
the sentinel "Tidak Terkategori"; a failing call degrades to the sentinel
instead of propagating past the classifier boundary. -/
theorem c1_classifier_closed_set (text : String) (resp : GroqResult) :
    classify_transaction_groq text resp ∈ validLabels ++ ["Tidak Terkategori"] ∧
    classify_transaction_groq text GroqResult.error = "Tidak Terkategori" := by
  constructor
  · unfold classify_transaction_groq
    split
    · simp
    · cases resp with
      | error => simp
      | ok raw =>
        by_cases h : cleanReply raw ∈ validLabels
        · simp [h]
        · simp [h]
  · unfold classify_transaction_groq
    split <;> rfl

/-- C6: the classifier post-processes a raw reply by trimming whitespace,
deleting every non-ASCII-letter character and capitalizing, and accepts the
result only on exact membership in the four canonical labels; the reply
"Kebutuhan.\n" yields "Kebutuhan" and the reply I dont know (with
apostrophe) yields the sentinel. -/
theorem c6_reply_postprocessing :
    classify_transaction_groq "makan" (GroqResult.ok "Kebutuhan.\n") = "Kebutuhan" ∧
    classify_transaction_groq "makan" (GroqResult.ok iDontKnow) = "Tidak Terkategori" ∧
    ∀ (text raw : String), pyStrip text ≠ "" →
      classify_transaction_groq text (GroqResult.ok raw) =
        (if cleanReply raw ∈ validLabels then cleanReply raw
         else "Tidak Terkategori") := by
  refine ⟨by decide, by decide, ?_⟩
  intro text raw h
  unfold classify_transaction_groq
  rw [if_neg h]

/-- Witness for C6 at a concrete unmatched reply. -/
theorem c6_reply_postprocessing_witness :
    classify_transaction_groq "makan" (GroqResult.ok "I do not know") =
      (if cleanReply "I do not know" ∈ validLabels then cleanReply "I do not know"
       else "Tidak Terkategori") :=
  c6_reply_postprocessing.2.2 "makan" "I do not know" (by decide)

/-- C10: the classifier is total over arbitrary cell values (str-coercion at
App.py line 34 means None, NaN and numbers never raise), and an input whose
string form strips to empty returns the sentinel without the result
depending on the external service at all. -/
theorem c10_classifier_total_on_cells (v : PyValue) (r r2 : GroqResult)
    (h : pyStrip (pyStr v) = "") :
    classifyPyCell v r = "Tidak Terkategori" ∧
    classifyPyCell v r = classifyPyCell v r2 := by
  constructor
  · unfold classifyPyCell classify_transaction_groq
    rw [if_pos h]
  · unfold classifyPyCell classify_transaction_groq
    rw [if_pos h, if_pos h]

/-- Witness for C10 at a whitespace-only cell. -/
theorem c10_classifier_total_on_cells_witness :
    classifyPyCell (PyValue.pystr "  ") (GroqResult.ok "Kebutuhan") = "Tidak Terkategori" :=
  (c10_classifier_total_on_cells (PyValue.pystr "  ")
    (GroqResult.ok "Kebutuhan") GroqResult.error (by decide)).1

/-- C5: normalization resolves the amount by first using a `jumlah` column
(non-numeric or missing cells coerced to 0), else `debit - kredit` when both
exist (each coerced independently), else 0 for every row; in the
debit/credit scenario debit=200000, kredit=50000 gives amount 150000. -/
theorem c5_amount_resolution :
    (∀ t : RawTable, normalizeAmounts t = t.rows.map (rowAmount t)) ∧
    to_numeric_fillna (Cell.text "abc") = 0 ∧
    to_numeric_fillna Cell.empty = 0 ∧
    normalizeAmounts tblDebitKredit = [150000] :=
  ⟨normalizeAmounts_eq, rfl, rfl, by
    simp [normalizeAmounts, tblDebitKredit, to_numeric_fillna]
    norm_num⟩

/-- C7: normalization produces exactly one Transaction per input row in the
original order (the output is the row-wise map of `rowTxn` over the input
rows, so the output length equals the input length and the i-th output comes
from the i-th input row), the description is the empty string for every row
when no description column exists, and no row is dropped. -/
theorem c7_normalization_totality :
    (∀ (t : RawTable) (oracle : String → GroqResult),
      analyze_transactions t oracle = t.rows.map (rowTxn t oracle)) ∧
    (∀ (t : RawTable) (oracle : String → GroqResult),
      (analyze_transactions t oracle).length = t.rows.length) ∧
    ∀ (t : RawTable) (oracle : String → GroqResult),
      t.hasTransaksi = false → t.hasDeskripsi = false →
      ∀ tx ∈ analyze_transactions t oracle, tx.deskripsi = "" := by
  refine ⟨analyze_transactions_eq, ?_, ?_⟩
  · intro t oracle
    rw [analyze_transactions_eq]
    simp
  · intro t oracle ht hd tx htx
    rw [analyze_transactions_eq] at htx
    rcases List.mem_map.mp htx with ⟨r, _, rfl⟩
    simp [rowTxn, rowDescr, ht, hd]

/-- Witness for C7 at a concrete table with no description column. -/
theorem c7_normalization_totality_witness :
    (analyze_transactions tblNoDescr oracleFail).length = tblNoDescr.rows.length ∧
    ∀ tx ∈ analyze_transactions tblNoDescr oracleFail, tx.deskripsi = "" :=
  ⟨c7_normalization_totality.2.1 tblNoDescr oracleFail,
   c7_normalization_totality.2.2 tblNoDescr oracleFail rfl rfl⟩

/-- Counterexample to C3 as stated: a non-zero-total frame containing one
sentinel-labelled row of absolute amount 50 out of 100 makes the four
category ratios sum to 50 percent, not 100. -/
theorem c3_ratio_sum_counterexample :
    totalAbs dfSentinelHalf ≠ 0 ∧
    ratioValSum dfSentinelHalf = 50 ∧
    ratioValSum dfSentinelHalf ≠ 100 := by
  have h1 : totalAbs dfSentinelHalf = 100 := by
    norm_num [totalAbs, dfSentinelHalf]
  have h2 : ratioValSum dfSentinelHalf = 50 := by
    simp only [ratioValSum, ratioVal, canonicalLabels, List.map_cons,
      List.map_nil, List.sum_cons, List.sum_nil, h1, dfSentinelHalf,
      catAbsSum_cons, String.reduceEq, reduceIte]
    norm_num [catAbsSum, totalAbs]
  refine ⟨by rw [h1]; norm_num, h2, by rw [h2]; norm_num⟩

/-- C3 (amended): for every classified frame with non-zero total absolute
amount all of whose rows carry one of the four canonical labels (so no
amount sits under the sentinel), the four ratio values of `generate_ratios`
sum to exactly 100 percent. -/
theorem c3_ratio_sum_amended (df : List Txn) (h0 : totalAbs df ≠ 0)
    (hc : ∀ r ∈ df, r.kategori ∈ canonicalLabels) :
    ratioValSum df = 100 := by
  have hp := catAbsSum_partition df hc
  simp only [ratioValSum, canonicalLabels, ratioVal, List.map_cons,
    List.map_nil, List.sum_cons, List.sum_nil]
  field_simp
  linarith

/-- Witness for the amended C3 at a concrete all-canonical frame. -/
theorem c3_ratio_sum_amended_witness :
    ratioValSum dfCanonical = 100 :=
  c3_ratio_sum_amended dfCanonical
    (by norm_num [totalAbs, dfCanonical])
    (by decide)

/-- Counterexample to C4 as stated: in a category holding amounts 100 and
-100 the donut-chart aggregate (absolute value of the summed amounts,
App.py line 114) is 0, while the sum of absolute amounts is 200. -/
theorem c4_summary_aggregate_counterexample :
    donutValue dfMixedSigns "Kebutuhan" = 0 ∧
    specSumOfAbs dfMixedSigns "Kebutuhan" = 200 ∧
    donutValue dfMixedSigns "Kebutuhan" ≠ specSumOfAbs dfMixedSigns "Kebutuhan" := by
  have h1 : donutValue dfMixedSigns "Kebutuhan" = 0 := by
    simp only [donutValue, dfMixedSigns, List.filter_cons, List.filter_nil,
      String.reduceEq, decide_True, decide_False, reduceIte, List.map_cons,
      List.map_nil, List.sum_cons, List.sum_nil]
    norm_num
  have h2 : specSumOfAbs dfMixedSigns "Kebutuhan" = 200 := by
    norm_num [specSumOfAbs, dfMixedSigns]
  exact ⟨h1, h2, by rw [h1, h2]; norm_num⟩

/-- C4 (amended): the per-category aggregate of `generate_ratios` equals the
sum of absolute amounts (as the claim states), while the donut-chart
aggregate is the absolute value of the summed amounts, which coincides with
the sum of absolute amounts whenever the amounts of that category all share
one sign. -/
theorem c4_summary_aggregate_amended (df : List Txn) (k : String) :
    catAbsSum df k = specSumOfAbs df k ∧
    (((∀ r ∈ df, r.kategori = k → 0 ≤ r.jumlah) ∨
      (∀ r ∈ df, r.kategori = k → r.jumlah ≤ 0)) →
      donutValue df k = specSumOfAbs df k) := by
  refine ⟨catAbsSum_eq_specSumOfAbs df k, ?_⟩
  intro hs
  rw [← catAbsSum_eq_specSumOfAbs]
  unfold donutValue catAbsSum
  rcases hs with hs | hs
  · have h1 : ∀ x ∈ (df.filter (fun r => r.kategori = k)).map (fun r => r.jumlah),
        0 ≤ x := by
      intro x hx
      rcases List.mem_map.mp hx with ⟨r, hr, rfl⟩
      rcases List.mem_filter.mp hr with ⟨hrdf, hrk⟩
      exact hs r hrdf (by simpa using hrk)
    rw [abs_sum_of_forall_nonneg _ h1, List.map_map]
    rfl
  · have h1 : ∀ x ∈ (df.filter (fun r => r.kategori = k)).map (fun r => r.jumlah),
        x ≤ 0 := by
      intro x hx
      rcases List.mem_map.mp hx with ⟨r, hr, rfl⟩
      rcases List.mem_filter.mp hr with ⟨hrdf, hrk⟩
      exact hs r hrdf (by simpa using hrk)
    rw [abs_sum_of_forall_nonpos _ h1, List.map_map]
    rfl

/-- Witness for the amended C4 at a concrete single-sign frame. -/
theorem c4_summary_aggregate_amended_witness :
    donutValue dfOnePos "Kebutuhan" = specSumOfAbs dfOnePos "Kebutuhan" :=
  (c4_summary_aggregate_amended dfOnePos "Kebutuhan").2
    (Or.inl (by decide))

/-- C2 (code evaluated at the failing input): on an all-zero-amount frame
`generate_ratios` does return the sentinel "0%" for every category, but the
advisory section still evaluates its threshold rules against the 0 shares —
the Tujuan rule (share below 10) fires its savings-too-low advisory and the
other three categories report their healthy messages; no insufficient-data
branch exists. -/
theorem c2_zero_total_advisor_divergence :
    totalAbs dfZero = 0 ∧
    generate_ratios dfZero =
      [("Kewajiban/Total", "0%"), ("Kebutuhan/Total", "0%"),
       ("Tujuan/Total", "0%"), ("Keinginan/Total", "0%")] ∧
    advisorOutput dfZero =
      [("Kewajiban", false), ("Kebutuhan", false),
       ("Tujuan", true), ("Keinginan", false)] := by
  have h0 : totalAbs dfZero = 0 := by norm_num [totalAbs, dfZero]
  refine ⟨h0, ?_, ?_⟩
  · simp [generate_ratios, h0, canonicalLabels]
  · simp only [advisorOutput, canonicalLabels, advisoryWarn, rasioPct, h0,
      reduceIte, String.reduceEq, List.map_cons, List.map_nil]
    norm_num

/-- Counterexample to C9 as stated: on an all-zero-amount frame every value
of `generate_ratios` is the sentinel "0%", which is not a two-decimal
percentage string. -/
theorem c9_two_decimals_counterexample :
    (generate_ratios dfZero).map Prod.snd = ["0%", "0%", "0%", "0%"] ∧
    isTwoDecimalPct "0%" = false := by
  constructor
  · have h0 : totalAbs dfZero = 0 := by norm_num [totalAbs, dfZero]
    simp [generate_ratios, h0, canonicalLabels]
  · rfl

/-- C9 (amended): `generate_ratios` always returns exactly the four keys
"Kewajiban/Total", "Kebutuhan/Total", "Tujuan/Total", "Keinginan/Total" in
that order; with a non-zero total each value is the two-decimal percentage of
the category's absolute amount in the total absolute amount over all rows;
with a zero total each value is the sentinel "0%"; and a sentinel-labelled
row raises the denominator by its absolute amount while leaving every
canonical numerator unchanged. -/
theorem c9_generate_ratios_shape (df : List Txn) :
    (generate_ratios df).map Prod.fst =
      ["Kewajiban/Total", "Kebutuhan/Total", "Tujuan/Total", "Keinginan/Total"] ∧
    (totalAbs df ≠ 0 →
      generate_ratios df = canonicalLabels.map (fun k =>
        (k ++ "/Total", fmtPct2 (catAbsSum df k / totalAbs df * 100))) ∧
      ∀ p ∈ generate_ratios df, isTwoDecimalPct p.2 = true) ∧
    (totalAbs df = 0 → ∀ p ∈ generate_ratios df, p.2 = "0%") ∧
    ∀ r : Txn, r.kategori = "Tidak Terkategori" →
      totalAbs (df ++ [r]) = totalAbs df + |r.jumlah| ∧
      ∀ k ∈ canonicalLabels, catAbsSum (df ++ [r]) k = catAbsSum df k := by
  refine ⟨?_, ?_, ?_, ?_⟩
  · simp [generate_ratios, canonicalLabels]
  · intro h
    constructor
    · simp [generate_ratios, h]
    · intro p hp
      simp only [generate_ratios, h, reduceIte, List.mem_map] at hp
      rcases hp with ⟨k, _, rfl⟩
      exact isTwoDecimalPct_fmtPct2 _
  · intro h p hp
    simp only [generate_ratios, h, reduceIte, List.mem_map] at hp
    rcases hp with ⟨k, _, rfl⟩
    rfl
  · intro r hr
    refine ⟨totalAbs_append df r, ?_⟩
    intro k hk
    rw [catAbsSum_append, hr]
    fin_cases hk <;> simp

/-- Witness for the amended C9 at a concrete non-zero-total frame. -/
theorem c9_generate_ratios_shape_witness :
    (generate_ratios dfOnePos).map Prod.fst =
      ["Kewajiban/Total", "Kebutuhan/Total", "Tujuan/Total", "Keinginan/Total"] ∧
    ∀ p ∈ generate_ratios dfOnePos, isTwoDecimalPct p.2 = true :=
  ⟨(c9_generate_ratios_shape dfOnePos).1,
   ((c9_generate_ratios_shape dfOnePos).2.1
      (by norm_num [totalAbs, dfOnePos])).2⟩

/-- C8 (modelled from the spec, the deterministic variant being absent from
src/): the keyword classifier returns a label from the four canonical labels
plus Other, returns Other exactly on descriptions no keyword of any rule
matches, awards the first rule in priority order whose keyword set matches,
and is a pure function of the description (same text, same label; no
external call). -/
theorem c8_keyword_classifier (d : String) :
    classify_keyword d ∈ ["Kewajiban", "Kebutuhan", "Tujuan", "Keinginan", "Other"] ∧
    ((∀ r ∈ keywordRules, ruleHits d r = false) → classify_keyword d = "Other") ∧
    (∀ pre r rest, keywordRules = pre ++ r :: rest →
      (∀ r2 ∈ pre, ruleHits d r2 = false) → ruleHits d r = true →
      classify_keyword d = r.1) ∧
    ∀ d2 : String, d2 = d → classify_keyword d2 = classify_keyword d := by
  refine ⟨?_, ?_, ?_, ?_⟩
  · simp only [classify_keyword, keywordRules, classify_keyword_aux]
    split_ifs <;> simp
  · intro h
    have heq : keywordRules ++ [] = keywordRules := by simp
    unfold classify_keyword
    rw [← heq, classify_keyword_aux_append keywordRules [] d h]
    rfl
  · intro pre r rest heq hpre hr
    unfold classify_keyword
    rw [heq, classify_keyword_aux_append pre (r :: rest) d hpre]
    simp [classify_keyword_aux, hr]
  · intro d2 h
    rw [h]

/-- Witness for C8: a description matching only the fourth rule gets its
label, and a description matching no keyword gets Other. -/
theorem c8_keyword_classifier_witness :
    classify_keyword "Makan di KFC" = "Keinginan" ∧
    classify_keyword "Gaji masuk" = "Other" :=
  ⟨(c8_keyword_classifier "Makan di KFC").2.2.1
      (keywordRules.take 3)
      ("Keinginan", ["kfc", "hiburan", "game", "bioskop", "kopi"]) []
      (by decide) (by decide) (by decide),
   (c8_keyword_classifier "Gaji masuk").2.1 (by decide)⟩
